import Mathlib

/-!
Shallow embedding of `src/audio_hw.c` (STMicroelectronics audio HAL,
"tinyhal") and proofs about the behaviour its specification describes.

Machine integers are modelled as `Nat`/`Int`, with explicit `% 2^64`
wrapping where a C `size_t`/`uint64_t` computation can overflow.
External collaborators (the routing subsystem, the tinyalsa/tinycompress
transport) appear as explicit parameters: each modelled function takes
the collaborator's answers as inputs and records the calls it makes to
them in result traces.
-/

namespace AudioHw

/-- errno value EINVAL (22). -/
def EINVAL : Int := 22

/-- errno value ENODEV (19). -/
def ENODEV : Int := 19

/-- One plus the largest representable `size_t`/`uint64_t` value. -/
def U64 : Nat := 2 ^ 64

/-- The `enum voice_state` of the source: the nine states of the voice
trigger / voice recognition state machine. -/
inductive VoiceState
  | eVoiceNone
  | eVoiceTriggerIdle
  | eVoiceTriggerArmed
  | eVoiceTriggerFired
  | eVoiceRecogIdle
  | eVoiceRecogArmed
  | eVoiceRecogFired
  | eVoiceRecogAudio
  | eVoiceRecogReArm
  deriving DecidableEq, Repr

/-- Name of the trigger-only config stream (`kVoiceTriggerStreamName`). -/
def kVoiceTriggerStreamName : String := "voice trigger"

/-- Name of the trigger+audio config stream (`kVoiceRecogStreamName`). -/
def kVoiceRecogStreamName : String := "voice recognition"

/-- Android device id `AUDIO_DEVICE_IN_BUILTIN_MIC`. -/
def AUDIO_DEVICE_IN_BUILTIN_MIC : Nat := 0x80000004

/-- The slice of `struct audio_device` touched by the voice-trigger state
machine: the state, the (union) `voice_trig_stream` handle, the configured
trigger microphone, plus traces of the `apply_route` and `release_stream`
calls issued to the routing collaborator. Hardware handles are identified
by numbers. -/
structure VTDev where
  voice_st : VoiceState
  voice_trig_stream : Option Nat
  voice_trig_mic : Nat
  applied : List (Nat × Nat)
  released : List Nat
  deriving DecidableEq, Repr

/-- `do_voice_trigger_open_stream`: look up the named stream through the
routing collaborator (`getNamed` models `get_named_stream`), store the
result in `voice_trig_stream` and, when found, apply the configured
trigger microphone (built-in microphone by default) to it. -/
def do_voice_trigger_open_stream (getNamed : String → Option Nat)
    (adev : VTDev) (streamName : String) : VTDev :=
  let adev1 := { adev with voice_trig_stream := getNamed streamName }
  match adev1.voice_trig_stream with
  | some hw =>
      let mic := if adev1.voice_trig_mic ≠ 0 then adev1.voice_trig_mic
                 else AUDIO_DEVICE_IN_BUILTIN_MIC
      { adev1 with applied := adev1.applied ++ [(hw, mic)] }
  | none => adev1

/-- `do_voice_trigger_close_stream`: when a stream handle is held, apply
route 0 to it and release it. The source's final statement
`adev->voice_trig_stream == NULL;` is an equality comparison, not an
assignment, so the stored reference is left unchanged. -/
def do_voice_trigger_close_stream (adev : VTDev) : VTDev :=
  match adev.voice_trig_stream with
  | some hw =>
      { adev with applied := adev.applied ++ [(hw, 0)],
                  released := adev.released ++ [hw] }
  | none => adev

/-- `voice_trigger_enable` (state-machine body; the device lock is not
modelled). -/
def voice_trigger_enable (getNamed : String → Option Nat)
    (adev : VTDev) : VTDev :=
  match adev.voice_st with
  | .eVoiceNone => adev
  | .eVoiceTriggerIdle | .eVoiceTriggerFired =>
      let adev1 := do_voice_trigger_open_stream getNamed adev
                     kVoiceTriggerStreamName
      { adev1 with voice_st := .eVoiceTriggerArmed }
  | .eVoiceTriggerArmed => adev
  | .eVoiceRecogIdle =>
      let adev1 := do_voice_trigger_open_stream getNamed adev
                     kVoiceRecogStreamName
      { adev1 with voice_st := .eVoiceRecogArmed }
  | .eVoiceRecogArmed | .eVoiceRecogFired | .eVoiceRecogReArm => adev
  | .eVoiceRecogAudio => { adev with voice_st := .eVoiceRecogReArm }

/-- `voice_trigger_disable` (state-machine body). -/
def voice_trigger_disable (adev : VTDev) : VTDev :=
  match adev.voice_st with
  | .eVoiceNone => adev
  | .eVoiceTriggerIdle => adev
  | .eVoiceTriggerFired | .eVoiceTriggerArmed =>
      let adev1 := do_voice_trigger_close_stream adev
      { adev1 with voice_st := .eVoiceTriggerIdle }
  | .eVoiceRecogIdle => adev
  | .eVoiceRecogArmed =>
      let adev1 := do_voice_trigger_close_stream adev
      { adev1 with voice_st := .eVoiceRecogIdle }
  | .eVoiceRecogFired | .eVoiceRecogAudio => adev
  | .eVoiceRecogReArm => { adev with voice_st := .eVoiceRecogAudio }

/-- `voice_trigger_triggered` (state-machine body). -/
def voice_trigger_triggered (adev : VTDev) : VTDev :=
  match adev.voice_st with
  | .eVoiceNone | .eVoiceTriggerIdle | .eVoiceTriggerFired => adev
  | .eVoiceTriggerArmed => { adev with voice_st := .eVoiceTriggerFired }
  | .eVoiceRecogIdle | .eVoiceRecogFired | .eVoiceRecogAudio
  | .eVoiceRecogReArm => adev
  | .eVoiceRecogArmed => { adev with voice_st := .eVoiceRecogFired }

/-- `voice_trigger_audio_started_locked`. -/
def voice_trigger_audio_started_locked (adev : VTDev) : VTDev :=
  match adev.voice_st with
  | .eVoiceNone | .eVoiceTriggerIdle | .eVoiceTriggerArmed
  | .eVoiceTriggerFired => adev
  | .eVoiceRecogIdle | .eVoiceRecogArmed => adev
  | .eVoiceRecogFired => { adev with voice_st := .eVoiceRecogAudio }
  | .eVoiceRecogAudio | .eVoiceRecogReArm => adev

/-- `voice_trigger_audio_ended_locked`. -/
def voice_trigger_audio_ended_locked (adev : VTDev) : VTDev :=
  match adev.voice_st with
  | .eVoiceNone | .eVoiceTriggerIdle | .eVoiceTriggerArmed
  | .eVoiceTriggerFired => adev
  | .eVoiceRecogIdle | .eVoiceRecogArmed | .eVoiceRecogFired => adev
  | .eVoiceRecogAudio =>
      let adev1 := do_voice_trigger_close_stream adev
      { adev1 with voice_st := .eVoiceRecogIdle }
  | .eVoiceRecogReArm => { adev with voice_st := .eVoiceRecogArmed }

/-- The five events the voice-trigger arbitrator reacts to. -/
inductive VEvent
  | enable | disable | triggerFired | audioStarted | audioEnded
  deriving DecidableEq, Repr

/-- Dispatch one event to the corresponding source function. -/
def voiceStep (getNamed : String → Option Nat) (adev : VTDev)
    (e : VEvent) : VTDev :=
  match e with
  | .enable => voice_trigger_enable getNamed adev
  | .disable => voice_trigger_disable adev
  | .triggerFired => voice_trigger_triggered adev
  | .audioStarted => voice_trigger_audio_started_locked adev
  | .audioEnded => voice_trigger_audio_ended_locked adev

/-- The transition table of spec section 4.5, transcribed from the spec's
words (not from the code) to compare against the source functions. -/
def specVoiceTransition (s : VoiceState) (e : VEvent) : VoiceState :=
  match e, s with
  | .enable, .eVoiceTriggerIdle => .eVoiceTriggerArmed
  | .enable, .eVoiceTriggerFired => .eVoiceTriggerArmed
  | .enable, .eVoiceRecogIdle => .eVoiceRecogArmed
  | .enable, .eVoiceRecogAudio => .eVoiceRecogReArm
  | .enable, s => s
  | .disable, .eVoiceTriggerFired => .eVoiceTriggerIdle
  | .disable, .eVoiceTriggerArmed => .eVoiceTriggerIdle
  | .disable, .eVoiceRecogArmed => .eVoiceRecogIdle
  | .disable, .eVoiceRecogReArm => .eVoiceRecogAudio
  | .disable, s => s
  | .triggerFired, .eVoiceTriggerArmed => .eVoiceTriggerFired
  | .triggerFired, .eVoiceRecogArmed => .eVoiceRecogFired
  | .triggerFired, s => s
  | .audioStarted, .eVoiceRecogFired => .eVoiceRecogAudio
  | .audioStarted, s => s
  | .audioEnded, .eVoiceRecogAudio => .eVoiceRecogIdle
  | .audioEnded, .eVoiceRecogReArm => .eVoiceRecogArmed
  | .audioEnded, s => s

theorem do_voice_trigger_open_stream_voice_st
    (getNamed : String → Option Nat) (adev : VTDev) (n : String) :
    (do_voice_trigger_open_stream getNamed adev n).voice_st =
      adev.voice_st := by
  unfold do_voice_trigger_open_stream
  cases h : getNamed n <;> simp [h]

theorem do_voice_trigger_close_stream_voice_st (adev : VTDev) :
    (do_voice_trigger_close_stream adev).voice_st = adev.voice_st := by
  unfold do_voice_trigger_close_stream
  cases h : adev.voice_trig_stream <;> simp [h]

theorem voiceStep_voice_st (getNamed : String → Option Nat)
    (adev : VTDev) (e : VEvent) :
    (voiceStep getNamed adev e).voice_st =
      specVoiceTransition adev.voice_st e := by
  cases e <;> cases h : adev.voice_st <;>
    simp [voiceStep, voice_trigger_enable, voice_trigger_disable,
          voice_trigger_triggered, voice_trigger_audio_started_locked,
          voice_trigger_audio_ended_locked, specVoiceTransition, h,
          do_voice_trigger_open_stream_voice_st,
          do_voice_trigger_close_stream_voice_st]

/-- C1: replaying any sequence of the five events
enable/disable/triggerFired/audioCaptureStarted/audioCaptureEnded through
the source's voice-trigger functions leaves the arbitrator's voice state
equal to the fold of the spec section 4.5 transition table over the
sequence, for every initial device state (hence for each of the 9 possible
initial voice states). -/
theorem voice_state_replay_eq_spec_fold (getNamed : String → Option Nat)
    (adev : VTDev) (evs : List VEvent) :
    (evs.foldl (voiceStep getNamed) adev).voice_st =
      evs.foldl specVoiceTransition adev.voice_st := by
  induction evs generalizing adev with
  | nil => rfl
  | cons e rest ih =>
      simp only [List.foldl_cons, ih, voiceStep_voice_st]

/-- C9: evaluating `do_voice_trigger_close_stream` on a device that holds
a voice-trigger stream handle shows the handle reference is NOT cleared:
the source's `adev->voice_trig_stream == NULL;` is a comparison with no
effect, so the reference survives the close, contradicting the claim's
(intended) postcondition that it becomes null. The route is torn down and
the stream released, but the stale handle remains stored. -/
theorem do_voice_trigger_close_stream_keeps_reference :
    (do_voice_trigger_close_stream
      { voice_st := .eVoiceTriggerArmed, voice_trig_stream := some 7,
        voice_trig_mic := 0, applied := [], released := [] }
      ).voice_trig_stream = some 7 := by
  rfl

/-!
Input-source switching (`change_input_source_locked`) and the
voice-control registration (`adev->active_voice_control`).
-/

/-- Android use-case id `AUDIO_SOURCE_VOICE_RECOGNITION`. -/
def AUDIO_SOURCE_VOICE_RECOGNITION : Int := 6

/-- `voice_trigger_audio_stream_name`: pick the named stream to try for
the voice-recognition input source from the instantaneous arbitrator
state (NULL becomes `none`). -/
def voice_trigger_audio_stream_name (st : VoiceState) : Option String :=
  match st with
  | .eVoiceNone | .eVoiceTriggerIdle | .eVoiceTriggerArmed
  | .eVoiceTriggerFired => some kVoiceRecogStreamName
  | .eVoiceRecogIdle | .eVoiceRecogArmed | .eVoiceRecogReArm => none
  | .eVoiceRecogFired => some kVoiceRecogStreamName
  | .eVoiceRecogAudio => none

/-- The slice of `struct stream_in_common` used by input-source switching.
`id` models the stream's pointer identity (what the C code compares
against `adev->active_voice_control`). -/
structure InCommon where
  id : Nat
  standby : Bool
  input_source : Int
  hw : Option Nat
  deriving DecidableEq, Repr

/-- The device-level state seen by input-source switching: the
`active_voice_control` back-reference (stream id, or none) together with
the voice-trigger state. -/
structure CisDev where
  active_voice_control : Option Nat
  vt : VTDev
  deriving DecidableEq, Repr

/-- A notification delivered to the voice-trigger arbitrator
(`voice_trigger_audio_started_locked` / `voice_trigger_audio_ended_locked`). -/
inductive ArbNote
  | started | ended
  deriving DecidableEq, Repr

/-- Result of `change_input_source_locked`: return code, updated stream
and device state, the `was_changed` out-parameter, the arbitrator
notifications issued during the call (in order), and the hardware streams
released back to the routing collaborator. -/
structure CisResult where
  ret : Int
  stream : InCommon
  adev : CisDev
  was_changed : Bool
  notes : List ArbNote
  releasedStreams : List Nat
  deriving DecidableEq, Repr

/-- `change_input_source_locked` from the source. The routing collaborator
is abstracted: `getNamed` models `get_named_stream` and `generic` models
the `get_stream` fallback by device set and config (the function's
`devices` argument only feeds that fallback lookup). -/
def change_input_source_locked (getNamed : String → Option Nat)
    (generic : Option Nat) (inS : InCommon) (adev : CisDev)
    (new_source : Int) : CisResult :=
  if inS.standby = false then
    ⟨-EINVAL, inS, adev, false, [], []⟩
  else if inS.input_source = new_source then
    ⟨0, inS, adev, false, [], []⟩
  else
    let voice_control : Bool := new_source == AUDIO_SOURCE_VOICE_RECOGNITION
    let stream_name : Option String :=
      if voice_control then voice_trigger_audio_stream_name adev.vt.voice_st
      else none
    let hwNamed : Option Nat :=
      match stream_name with
      | some n => getNamed n
      | none => none
    let hw : Option Nat :=
      match hwNamed with
      | some h => some h
      | none => generic
    match hw with
    | none => ⟨-EINVAL, inS, adev, false, [], []⟩
    | some h =>
        let rel : List Nat :=
          match inS.hw with
          | some old => [old]
          | none => []
        let inS1 := { inS with hw := some h, input_source := new_source }
        if voice_control then
          ⟨0, inS1,
            { adev with active_voice_control := some inS.id,
                        vt := voice_trigger_audio_started_locked adev.vt },
            true, [ArbNote.started], rel⟩
        else if adev.active_voice_control == some inS.id then
          ⟨0, inS1,
            { adev with active_voice_control := none,
                        vt := voice_trigger_audio_ended_locked adev.vt },
            true, [ArbNote.ended], rel⟩
        else
          ⟨0, inS1, adev, true, [], rel⟩

/-- Device-side effects of `do_close_in_common`: after forcing standby,
if the closing stream is the registered voice-control input the
registration is cleared and the arbitrator is told audio capture ended;
the stream's hardware handle (if any) is then released. Returns the new
device state, the notifications, and the released handles. -/
def do_close_in_common (inS : InCommon) (adev : CisDev) :
    CisDev × List ArbNote × List Nat :=
  let rel : List Nat :=
    match inS.hw with
    | some h => [h]
    | none => []
  if adev.active_voice_control == some inS.id then
    ({ adev with active_voice_control := none,
                 vt := voice_trigger_audio_ended_locked adev.vt },
     [ArbNote.ended], rel)
  else
    (adev, [], rel)

/-- Concrete run for claim C2: stream 1 (in standby, source unset)
switches to the voice-recognition source while stream 0 is the registered
voice-control input; the named-stream lookup succeeds (handle 5). -/
def c2run : CisResult :=
  change_input_source_locked (fun _ => some 5) none
    { id := 1, standby := true, input_source := -1, hw := none }
    { active_voice_control := some 0,
      vt := { voice_st := .eVoiceRecogFired, voice_trig_stream := some 9,
              voice_trig_mic := 0, applied := [], released := [] } }
    AUDIO_SOURCE_VOICE_RECOGNITION

/-- C2 counterexample: when stream 1 registers as the voice-control input
while stream 0 is registered, the code simply overwrites the registration
and notifies the arbitrator that audio capture STARTED; no
`audioCaptureEnded` notification is issued for the displaced stream 0,
contradicting the claim that the old registration is first cleared with
`audioCaptureEnded` emitted for it. -/
theorem displacement_emits_no_audio_ended :
    c2run.ret = 0 ∧ c2run.adev.active_voice_control = some 1 ∧
      c2run.notes = [ArbNote.started] ∧ ArbNote.ended ∉ c2run.notes := by
  decide

/-- C2 (amended): at most one stream is registered at a time (the
registration is a single reference, so two simultaneous registrations
coincide); a successful voice-recognition source change registers the
calling stream — overwriting, without an `audioCaptureEnded`
notification, any previously registered stream — and notifies the
arbitrator that audio capture started; `audioCaptureEnded` for the
registered stream is emitted when that stream is closed, which also
clears the registration. -/
theorem voice_control_registration_amended (getNamed : String → Option Nat)
    (generic : Option Nat) (inS : InCommon) (adev : CisDev)
    (hs : inS.standby = true)
    (hd : inS.input_source ≠ AUDIO_SOURCE_VOICE_RECOGNITION)
    (hr : (change_input_source_locked getNamed generic inS adev
            AUDIO_SOURCE_VOICE_RECOGNITION).ret = 0) :
    (∀ a b : Nat,
      (change_input_source_locked getNamed generic inS adev
        AUDIO_SOURCE_VOICE_RECOGNITION).adev.active_voice_control = some a →
      (change_input_source_locked getNamed generic inS adev
        AUDIO_SOURCE_VOICE_RECOGNITION).adev.active_voice_control = some b →
      a = b) ∧
    (change_input_source_locked getNamed generic inS adev
      AUDIO_SOURCE_VOICE_RECOGNITION).adev.active_voice_control
        = some inS.id ∧
    (change_input_source_locked getNamed generic inS adev
      AUDIO_SOURCE_VOICE_RECOGNITION).notes = [ArbNote.started] ∧
    (adev.active_voice_control = some inS.id →
      (do_close_in_common inS adev).1.active_voice_control = none ∧
      (do_close_in_common inS adev).2.1 = [ArbNote.ended]) := by
  refine ⟨fun a b ha hb => by rw [ha] at hb
                              exact (Option.some.injEq _ _).mp hb, ?_⟩
  unfold change_input_source_locked at hr ⊢
  simp only [hs, hd] at hr ⊢
  simp only [Bool.true_eq_false, if_false, ite_false, beq_self_eq_true,
             ite_true] at hr ⊢
  cases hn : voice_trigger_audio_stream_name adev.vt.voice_st with
  | none =>
      rw [hn] at hr
      cases hg : generic with
      | none =>
          rw [hg] at hr
          exact absurd (show (-EINVAL : Int) = 0 from hr) (by decide)
      | some h =>
          refine ⟨rfl, rfl, fun hreg => ?_⟩
          unfold do_close_in_common
          simp [hreg]
  | some n =>
      rw [hn] at hr
      cases hgn : getNamed n with
      | none =>
          simp only [hgn] at hr ⊢
          cases hg : generic with
          | none =>
              rw [hg] at hr
              exact absurd (show (-EINVAL : Int) = 0 from hr) (by decide)
          | some h =>
              refine ⟨rfl, rfl, fun hreg => ?_⟩
              unfold do_close_in_common
              simp [hreg]
      | some h =>
          refine ⟨?_, ?_, fun hreg => ?_⟩
          · simp [hgn]
          · simp [hgn]
          · unfold do_close_in_common
            simp [hreg]

/-- Witness for the amended C2 theorem at a concrete input: stream 1 in
standby with source unset, named lookup succeeding with handle 5, device
in recognition-fired state with stream 0 registered. -/
theorem voice_control_registration_amended_witness :
    c2run.adev.active_voice_control = some 1 ∧
      c2run.notes = [ArbNote.started] :=
  ⟨(voice_control_registration_amended (fun _ => some 5) none
      { id := 1, standby := true, input_source := -1, hw := none }
      { active_voice_control := some 0,
        vt := { voice_st := .eVoiceRecogFired, voice_trig_stream := some 9,
                voice_trig_mic := 0, applied := [], released := [] } }
      rfl (by decide) (by decide)).2.1,
   (voice_control_registration_amended (fun _ => some 5) none
      { id := 1, standby := true, input_source := -1, hw := none }
      { active_voice_control := some 0,
        vt := { voice_st := .eVoiceRecogFired, voice_trig_stream := some 9,
                voice_trig_mic := 0, applied := [], released := [] } }
      rfl (by decide) (by decide)).2.2.1⟩

/-- C3: calling `change_input_source` on a stream that is not in standby
fails with InvalidArgument and leaves the stream (its `input_source`, its
hardware handle) and the device (its `active_voice_control` registration)
unchanged; no notification is issued and nothing is released. -/
theorem change_input_source_active_fails (getNamed : String → Option Nat)
    (generic : Option Nat) (inS : InCommon) (adev : CisDev)
    (new_source : Int) (h : inS.standby = false) :
    (change_input_source_locked getNamed generic inS adev new_source).ret
        = -EINVAL ∧
    (change_input_source_locked getNamed generic inS adev new_source).stream
        = inS ∧
    (change_input_source_locked getNamed generic inS adev new_source).adev
        = adev ∧
    (change_input_source_locked getNamed generic inS adev new_source).notes
        = [] ∧
    (change_input_source_locked getNamed generic inS adev
        new_source).releasedStreams = [] := by
  simp [change_input_source_locked, h]

/-- Witness for C3 at a concrete input: an active (non-standby) stream. -/
theorem change_input_source_active_fails_witness :
    (change_input_source_locked (fun _ => some 5) none
      { id := 0, standby := false, input_source := 1, hw := some 3 }
      { active_voice_control := none,
        vt := { voice_st := .eVoiceNone, voice_trig_stream := none,
                voice_trig_mic := 0, applied := [], released := [] } }
      6).ret = -EINVAL :=
  (change_input_source_active_fails (fun _ => some 5) none
    { id := 0, standby := false, input_source := 1, hw := some 3 }
    { active_voice_control := none,
      vt := { voice_st := .eVoiceNone, voice_trig_stream := none,
              voice_trig_mic := 0, applied := [], released := [] } }
    6 rfl).1

/-!
The resampler bridge (`struct in_resampler`): frame accounting of
`get_next_buffer` and `release_buffer`. Buffer contents (and the
stereo-to-mono decimation) are not modelled, only the frame counts the
claims are about.
-/

/-- The frame-accounting fields of `struct in_resampler`: `frames_in`
(`size_t`, frames in the intermediate buffer not yet consumed),
`in_buffer_frames` (`int`, capacity of the buffer: one hardware period)
and the latched `read_status`. -/
structure InResampler where
  frames_in : Nat
  in_buffer_frames : Nat
  read_status : Int
  deriving DecidableEq, Repr

/-- Result of `get_next_buffer`: the updated resampler state, the granted
`frame_count`, the frame offset into the intermediate buffer of the
returned pointer (`none` when the raw pointer was set to NULL), the
returned status, and whether a hardware-period `pcm_read` was issued. -/
structure GnbResult where
  rsp : InResampler
  frame_count : Nat
  offset : Option Nat
  status : Int
  didRead : Bool
  deriving DecidableEq, Repr

/-- `get_next_buffer` from the source. `pcmOpen` models
`in->pcm != NULL`; `readRet` models the `pcm_read` result used when a
hardware-period read is issued (0 is success). -/
def get_next_buffer (pcmOpen : Bool) (readRet : Int)
    (rsp : InResampler) (requested : Nat) : GnbResult :=
  if pcmOpen = false then
    { rsp := { rsp with read_status := -ENODEV },
      frame_count := 0, offset := none, status := -ENODEV,
      didRead := false }
  else if rsp.frames_in = 0 then
    if readRet ≠ 0 then
      { rsp := { rsp with read_status := readRet },
        frame_count := 0, offset := none, status := readRet,
        didRead := true }
    else
      let rsp1 := { rsp with read_status := readRet,
                             frames_in := rsp.in_buffer_frames }
      { rsp := rsp1,
        frame_count := min requested rsp1.frames_in,
        offset := some (rsp1.in_buffer_frames - rsp1.frames_in),
        status := rsp1.read_status, didRead := true }
  else
    { rsp := rsp,
      frame_count := min requested rsp.frames_in,
      offset := some (rsp.in_buffer_frames - rsp.frames_in),
      status := rsp.read_status, didRead := false }

/-- `release_buffer` from the source:
`rsp->frames_in -= buffer->frame_count;` in wrapping `size_t`
arithmetic. -/
def release_buffer (rsp : InResampler) (frame_count : Nat) : InResampler :=
  { rsp with
      frames_in := (rsp.frames_in % U64 + (U64 - frame_count % U64)) % U64 }

/-- One converter iteration against the buffer provider: a pull requesting
`M` frames followed by the matching release of the `c` frames the
converter consumed. -/
def pullRelease (pcmOpen : Bool) (readRet : Int) (rsp : InResampler)
    (M c : Nat) : InResampler :=
  release_buffer (get_next_buffer pcmOpen readRet rsp M).rsp c

theorem release_buffer_frames_in (rsp : InResampler) (c : Nat)
    (hle : c ≤ rsp.frames_in) (hU : rsp.frames_in < U64) :
    (release_buffer rsp c).frames_in = rsp.frames_in - c := by
  have hU' : rsp.frames_in < 2 ^ 64 := hU
  show (rsp.frames_in % 2 ^ 64 + (2 ^ 64 - c % 2 ^ 64)) % 2 ^ 64
      = rsp.frames_in - c
  omega

/-- C4: resampler-bridge frame accounting, for a hardware period of `N`
frames and any requested pull of `M ≤ N` frames.
(i) With the buffer empty, a pull issues exactly one hardware-period
read and makes `min M N = M` frames available at offset 0 with the
buffer holding `N` frames.
(ii) With `f > 0` frames still buffered, a pull issues no hardware read
and makes `min M f` frames available at offset `N - f` — exactly the
frames already consumed from the period.
(iii) The matching release decrements `frames_in` by exactly the `c`
frames the converter consumed.
(iv) Hence a pull-release iteration consuming `c ≤ min M f` leaves
`f - c ≤ f` frames and triggers no hardware read while `f > 0`:
`frames_in` decreases monotonically to 0 before the next
hardware-period read. -/
theorem resampler_bridge_round_trip (N M f c : Nat) (rsp : InResampler)
    (hN : rsp.in_buffer_frames = N) (hf : rsp.frames_in = f)
    (hfN : f ≤ N) (hNU : N < U64) (hM : M ≤ N) :
    (f = 0 →
      (get_next_buffer true 0 rsp M).didRead = true ∧
      (get_next_buffer true 0 rsp M).frame_count = M ∧
      (get_next_buffer true 0 rsp M).offset = some 0 ∧
      (get_next_buffer true 0 rsp M).rsp.frames_in = N) ∧
    (0 < f →
      (get_next_buffer true 0 rsp M).didRead = false ∧
      (get_next_buffer true 0 rsp M).frame_count = min M f ∧
      (get_next_buffer true 0 rsp M).offset = some (N - f) ∧
      (get_next_buffer true 0 rsp M).rsp.frames_in = f) ∧
    (c ≤ f → (release_buffer rsp c).frames_in = f - c) ∧
    (0 < f → c ≤ min M f →
      (pullRelease true 0 rsp M c).frames_in = f - c ∧ f - c ≤ f) := by
  refine ⟨fun h0 => ?_, fun hpos => ?_, fun hc => ?_, fun hpos hc => ?_⟩
  · simp [get_next_buffer, hf, h0, hN, Nat.min_eq_left hM]
  · have hf0 : ¬ (f = 0) := by omega
    simp [get_next_buffer, hf, hN, hf0]
  · rw [← hf] at hc ⊢
    exact release_buffer_frames_in rsp c hc (by omega)
  · have hne : ¬ rsp.frames_in = 0 := by omega
    unfold pullRelease
    have hg : (get_next_buffer true 0 rsp M).rsp = rsp := by
      simp [get_next_buffer, hne]
    rw [hg]
    refine ⟨?_, Nat.sub_le _ _⟩
    rw [← hf] at hc ⊢
    exact release_buffer_frames_in rsp c (le_trans hc (Nat.min_le_right _ _))
      (by omega)

/-- Witness for C4 at a concrete input: a period of 4 frames, a pull of
2 frames against a buffer holding 2 frames, releasing 1 frame. -/
theorem resampler_bridge_round_trip_witness :
    ((⟨2, 4, 0⟩ : InResampler).in_buffer_frames = 4 ∧
      (⟨2, 4, 0⟩ : InResampler).frames_in = 2 ∧ 2 ≤ 4 ∧ (2:Nat) ≤ 4) ∧
    ((0 < 2 →
      (get_next_buffer true 0 ⟨2, 4, 0⟩ 2).didRead = false ∧
      (get_next_buffer true 0 ⟨2, 4, 0⟩ 2).frame_count = min 2 2 ∧
      (get_next_buffer true 0 ⟨2, 4, 0⟩ 2).offset = some (4 - 2) ∧
      (get_next_buffer true 0 ⟨2, 4, 0⟩ 2).rsp.frames_in = 2) ∧
     (1 ≤ 2 → (release_buffer ⟨2, 4, 0⟩ 1).frames_in = 2 - 1)) :=
  ⟨⟨rfl, rfl, by decide, by decide⟩,
   (resampler_bridge_round_trip 4 2 2 1 ⟨2, 4, 0⟩ rfl rfl (by decide)
      (by norm_num [U64]) (by decide)).2.1,
   (resampler_bridge_round_trip 4 2 2 1 ⟨2, 4, 0⟩ rfl rfl (by decide)
      (by norm_num [U64]) (by decide)).2.2.1⟩

/-!
The PCM output stream: `out_pcm_write`, `do_out_pcm_standby`,
`do_init_out_pcm` and `out_get_presentation_position`.
-/

/-- The slice of `struct stream_out_pcm` the output-stream claims need:
the standby flag, whether a pcm transport handle is held, the negotiated
hardware period shape, the two `uint64_t` frame counters and the
framework-visible frame size. -/
structure OutPcm where
  standby : Bool
  pcm : Bool
  hw_period_size : Nat
  hw_period_count : Nat
  hw_frames_written : Nat
  hw_frames_rendered : Nat
  frame_size : Nat
  deriving DecidableEq, Repr

/-- Collaborator answers for one `out_pcm_write` call: the current route
bitmask (`get_current_routes`), the `disable_audio` flag, the
`start_output_pcm` result when the stream must leave standby, the
`pcm_write` result when the transport is reached, and the period shape
`start_output_pcm` negotiates (`out_pcm_fill_params`). -/
structure OutWriteEnv where
  routes : Nat
  disable_audio : Bool
  startRet : Int
  writeRet : Int
  cfgPeriodSize : Nat
  cfgPeriodCount : Nat
  deriving DecidableEq, Repr

/-- Result of `out_pcm_write`: new stream state, return value, and
whether a `pcm_write` call reached the hardware transport. -/
structure OutWriteResult where
  out : OutPcm
  ret : Int
  wroteToHw : Bool
  deriving DecidableEq, Repr

/-- Tail of `out_pcm_write` after the standby-exit block (the 16-bit
build): write to the transport unless audio is disabled; on a
non-negative transport result report `bytes` consumed and advance both
frame counters by `bytes / frame_size` (wrapping `uint64_t`); on a
transport error return it unchanged; with audio disabled sleep instead
and account the frames as written and rendered. -/
def out_pcm_write_body (env : OutWriteEnv) (out : OutPcm) (bytes : Nat) :
    OutWriteResult :=
  if env.disable_audio = false then
    if 0 ≤ env.writeRet then
      { out := { out with
          hw_frames_written :=
            (out.hw_frames_written + bytes / out.frame_size) % U64,
          hw_frames_rendered :=
            (out.hw_frames_rendered + bytes / out.frame_size) % U64 },
        ret := bytes, wroteToHw := true }
    else
      { out := out, ret := env.writeRet, wroteToHw := true }
  else
    { out := { out with
        hw_frames_written :=
          (out.hw_frames_written + bytes / out.frame_size) % U64,
        hw_frames_rendered :=
          (out.hw_frames_rendered + bytes / out.frame_size) % U64 },
      ret := bytes, wroteToHw := false }

/-- `out_pcm_write` from the source: an unrouted stream returns 0
immediately; a stream in standby first runs `start_output_pcm` (failure
is returned as-is, leaving standby set), then clears `standby`, adopts
the negotiated period shape and resets `hw_frames_rendered` — and only
`hw_frames_rendered` — to 0 before writing. -/
def out_pcm_write (env : OutWriteEnv) (out : OutPcm) (bytes : Nat) :
    OutWriteResult :=
  if env.routes = 0 then
    { out := out, ret := 0, wroteToHw := false }
  else if out.standby = true then
    if env.startRet ≠ 0 then
      { out := out, ret := env.startRet, wroteToHw := false }
    else
      out_pcm_write_body env
        { out with standby := false,
                   pcm := env.disable_audio = false,
                   hw_period_size := env.cfgPeriodSize,
                   hw_period_count := env.cfgPeriodCount,
                   hw_frames_rendered := 0 }
        bytes
  else
    out_pcm_write_body env out bytes

/-- `do_out_pcm_standby`: close the transport and re-enter standby when
the stream is active and holds a pcm handle. -/
def do_out_pcm_standby (out : OutPcm) : OutPcm :=
  if out.standby = false ∧ out.pcm = true then
    { out with standby := true, pcm := false }
  else out

/-- Counter initialisation performed by `do_init_out_pcm` at stream
construction: both frame counters start at 0. -/
def do_init_out_pcm (out : OutPcm) : OutPcm :=
  { out with hw_frames_rendered := 0, hw_frames_written := 0 }

/-- Environment for one successful routed write: route 1, audio enabled,
start and transport write succeed, hardware period 256 × 4. -/
def c5env : OutWriteEnv := ⟨1, false, 0, 0, 256, 4⟩

/-- Concrete replay for claim C5: construct a stream (frame size 4),
write 1024 bytes (256 frames), force standby, write 1024 bytes again —
the second write crosses a standby→active transition. -/
def c5run : OutWriteResult :=
  out_pcm_write c5env
    (do_out_pcm_standby
      (out_pcm_write c5env
        (do_init_out_pcm
          { standby := true, pcm := false, hw_period_size := 0,
            hw_period_count := 0, hw_frames_written := 99,
            hw_frames_rendered := 99, frame_size := 4 })
        1024).out)
    1024

/-- C5 counterexample: after the second standby→active transition and a
256-frame write, `hw_frames_rendered` is 256 (it was reset to 0 at the
transition) but `hw_frames_written` is 512 (it kept its pre-standby
value 256). Had both counters been reset to 0 on the transition, as the
claim states, both would read 256; `hw_frames_written ≠ 256` refutes the
claim. -/
theorem standby_transition_keeps_frames_written :
    c5run.out.hw_frames_rendered = 256 ∧
      c5run.out.hw_frames_written = 512 ∧
      c5run.out.hw_frames_written ≠ 256 := by
  refine ⟨by decide, by decide, by decide⟩

/-- C5 (amended): both counters are 0 at construction; a standby→active
transition resets only `hw_frames_rendered` to 0 (so after the
transition write it equals just that write's frames) while
`hw_frames_written` continues from its pre-transition value; and while
the stream is active both counters are monotonically non-decreasing
across successive writes (absent `uint64_t` wraparound). -/
theorem out_counters_amended (env : OutWriteEnv) (out : OutPcm)
    (bytes : Nat)
    (hroutes : env.routes ≠ 0) (hstart : env.startRet = 0)
    (hk : out.hw_frames_written + bytes / out.frame_size < U64)
    (hkr : out.hw_frames_rendered + bytes / out.frame_size < U64) :
    ((do_init_out_pcm out).hw_frames_written = 0 ∧
     (do_init_out_pcm out).hw_frames_rendered = 0) ∧
    (out.standby = true → 0 ≤ env.writeRet →
      (out_pcm_write env out bytes).out.hw_frames_rendered
          = bytes / out.frame_size ∧
      (out_pcm_write env out bytes).out.hw_frames_written
          = out.hw_frames_written + bytes / out.frame_size) ∧
    (out.standby = false →
      out.hw_frames_written
          ≤ (out_pcm_write env out bytes).out.hw_frames_written ∧
      out.hw_frames_rendered
          ≤ (out_pcm_write env out bytes).out.hw_frames_rendered) := by
  have hcU : bytes / out.frame_size < U64 :=
    lt_of_le_of_lt (Nat.le_add_left _ _) hk
  have hmc : bytes / out.frame_size % U64 = bytes / out.frame_size :=
    Nat.mod_eq_of_lt hcU
  have hmw : (out.hw_frames_written + bytes / out.frame_size) % U64
      = out.hw_frames_written + bytes / out.frame_size :=
    Nat.mod_eq_of_lt hk
  have hmr : (out.hw_frames_rendered + bytes / out.frame_size) % U64
      = out.hw_frames_rendered + bytes / out.frame_size :=
    Nat.mod_eq_of_lt hkr
  refine ⟨⟨rfl, rfl⟩, fun hsb hwr => ?_, fun hsb => ?_⟩
  · simp only [out_pcm_write, hroutes, hstart, hsb,
               if_true, if_false, ite_true, ite_false, ne_eq,
               not_true_eq_false, not_false_eq_true]
    cases hd : env.disable_audio with
    | false => simp [out_pcm_write_body, hd, hwr, hmc, hmw]
    | true => simp [out_pcm_write_body, hd, hmc, hmw]
  · simp only [out_pcm_write, hroutes, hsb]
    cases hd : env.disable_audio with
    | false =>
        by_cases hwr : 0 ≤ env.writeRet
        · simp [out_pcm_write_body, hd, hwr, hmw, hmr, Nat.le_add_right]
        · simp [out_pcm_write_body, hd, hwr]
    | true =>
        simp [out_pcm_write_body, hd, hmw, hmr, Nat.le_add_right]

/-- Witness for the amended C5 theorem at a concrete input: a
256-frame write to a stream in standby. -/
theorem out_counters_amended_witness :
    (out_pcm_write c5env
      { standby := true, pcm := false, hw_period_size := 0,
        hw_period_count := 0, hw_frames_written := 256,
        hw_frames_rendered := 0, frame_size := 4 }
      1024).out.hw_frames_rendered = 256 :=
  ((out_counters_amended c5env
      { standby := true, pcm := false, hw_period_size := 0,
        hw_period_count := 0, hw_frames_written := 256,
        hw_frames_rendered := 0, frame_size := 4 }
      1024 (by decide) rfl (by norm_num [U64]) (by norm_num [U64])).2.1
    rfl (by decide)).1

/-- Concrete run for claim C6: a 1024-byte (256-frame, frame size 4)
write to an output stream whose route set is empty. -/
def c6run : OutWriteResult :=
  out_pcm_write ⟨0, false, 0, 0, 256, 4⟩
    { standby := true, pcm := false, hw_period_size := 0,
      hw_period_count := 0, hw_frames_written := 0,
      hw_frames_rendered := 0, frame_size := 4 } 1024

/-- C6 counterexample: with zero routed devices the write returns 0, not
the requested byte count 1024 the claim states, and no call reaches the
transport. -/
theorem zero_routes_write_returns_zero_not_bytes :
    c6run.ret = 0 ∧ c6run.ret ≠ 1024 ∧ c6run.wroteToHw = false := by
  refine ⟨by decide, by decide, by decide⟩

/-- C6 (amended): a write to an output stream with zero routed devices
returns 0 (zero bytes consumed, which is not an error code), leaves the
stream state untouched, and no write call reaches the hardware
transport. -/
theorem zero_routes_write_amended (env : OutWriteEnv) (out : OutPcm)
    (bytes : Nat) (h : env.routes = 0) :
    (out_pcm_write env out bytes).ret = 0 ∧
    (out_pcm_write env out bytes).out = out ∧
    (out_pcm_write env out bytes).wroteToHw = false := by
  simp [out_pcm_write, h]

/-- Witness for the amended C6 theorem at the concrete C6 scenario. -/
theorem zero_routes_write_amended_witness :
    c6run.ret = 0 ∧ c6run.wroteToHw = false :=
  ⟨(zero_routes_write_amended ⟨0, false, 0, 0, 256, 4⟩
      { standby := true, pcm := false, hw_period_size := 0,
        hw_period_count := 0, hw_frames_written := 0,
        hw_frames_rendered := 0, frame_size := 4 } 1024 rfl).1,
   (zero_routes_write_amended ⟨0, false, 0, 0, 256, 4⟩
      { standby := true, pcm := false, hw_period_size := 0,
        hw_period_count := 0, hw_frames_written := 0,
        hw_frames_rendered := 0, frame_size := 4 } 1024 rfl).2.2⟩

/-!
Presentation position (`out_get_presentation_position`).
-/

/-- One plus the largest representable `unsigned int` value. -/
def U32 : Nat := 2 ^ 32

/-- Truncation to `unsigned int` (the type of `hw_period_size` and
`hw_period_count`, whose product therefore wraps at `2^32` before being
widened to `size_t`). -/
def u32 (n : Nat) : Nat := n % U32

/-- Wrapping `uint64_t` subtraction. -/
def u64sub (a b : Nat) : Nat := (a % U64 + (U64 - b % U64)) % U64

/-- Reinterpretation of a `uint64_t` bit pattern as `int64_t` (the C
conversion applied when the unsigned difference is assigned to
`int64_t presented_frames`). -/
def i64ofU64 (n : Nat) : Int :=
  if n % U64 < 2 ^ 63 then ((n % U64 : Nat) : Int)
  else ((n % U64 : Nat) : Int) - ((U64 : Nat) : Int)

/-- Answers of the `pcm_get_htimestamp` transport query: whether it
succeeded and the frames it reports available in the kernel buffer. -/
structure PresEnv where
  htsOk : Bool
  avail : Nat
  deriving DecidableEq, Repr

/-- `out_get_presentation_position` from the source: with an open pcm
handle, query `pcm_get_htimestamp`; on success compute
`hw_frames_written - hw_period_size * hw_period_count + avail` — the
period product in `unsigned int` arithmetic (wrap at `2^32`), the rest
in `int64_t` arithmetic — and report it exactly when non-negative.
Without a pcm handle the source's else-branch computes the same value
without `avail` — no timestamp query at all — and reports it when
non-negative. `some frames` models return 0 with `*frames` set; `none`
models the -EINVAL return. -/
def out_get_presentation_position (env : PresEnv) (out : OutPcm) :
    Option Nat :=
  if out.pcm = true then
    if env.htsOk = true then
      let kernel_buffer_size :=
        u32 (out.hw_period_size * out.hw_period_count)
      let presented_frames :=
        i64ofU64 (u64sub out.hw_frames_written kernel_buffer_size
                    + env.avail)
      if 0 ≤ presented_frames then some presented_frames.toNat else none
    else none
  else
    let kernel_buffer_size :=
      u32 (out.hw_period_size * out.hw_period_count)
    let presented_frames :=
      i64ofU64 (u64sub out.hw_frames_written kernel_buffer_size)
    if 0 ≤ presented_frames then some presented_frames.toNat else none

/-- A freshly constructed output stream: no pcm handle, all counters and
period parameters zero. -/
def c8out : OutPcm :=
  { standby := true, pcm := false, hw_period_size := 0,
    hw_period_count := 0, hw_frames_written := 0,
    hw_frames_rendered := 0, frame_size := 4 }

/-- C8 counterexample: with no pcm handle open — so the transport cannot
yield any timestamp (`htsOk = false` is never even consulted) — the
call still reports a position (`some 0`), contradicting the claim that a
position is reported exactly when the transport yields a valid
timestamp and the computed value is non-negative. -/
theorem presentation_position_without_timestamp :
    out_get_presentation_position { htsOk := false, avail := 0 } c8out
      = some 0 := by
  rfl

theorem i64_presented_eq (w k a : Nat) (hw : w < 2 ^ 62)
    (hk : k < 2 ^ 62) (ha : a < 2 ^ 32) :
    i64ofU64 (u64sub w k + a) = (w : Int) + a - k := by
  simp only [i64ofU64, u64sub, U64]
  split_ifs with h <;> omega

/-- C8 (amended): with an open pcm handle, the position is
`framesWritten − hwPeriodSize × hwPeriodCount + framesAvailable` and is
reported exactly when the timestamp query succeeds and that value is
non-negative; but when no pcm handle is open the code reports
`framesWritten − hwPeriodSize × hwPeriodCount` whenever that is
non-negative, with no timestamp involved (the period product stays
below `2^32`, the `unsigned int` no-wrap region, and the other bounds
keep the `int64_t` arithmetic away from wraparound). -/
theorem out_get_presentation_position_spec (env : PresEnv) (out : OutPcm)
    (hwb : out.hw_frames_written < 2 ^ 62)
    (hkb : out.hw_period_size * out.hw_period_count < 2 ^ 32)
    (hab : env.avail < 2 ^ 32) :
    (out.pcm = true →
      out_get_presentation_position env out =
        if env.htsOk = true ∧
           out.hw_period_size * out.hw_period_count
             ≤ out.hw_frames_written + env.avail
        then some (out.hw_frames_written + env.avail
                   - out.hw_period_size * out.hw_period_count)
        else none) ∧
    (out.pcm = false →
      out_get_presentation_position env out =
        if out.hw_period_size * out.hw_period_count
             ≤ out.hw_frames_written
        then some (out.hw_frames_written
                   - out.hw_period_size * out.hw_period_count)
        else none) := by
  have hkb' : out.hw_period_size * out.hw_period_count < 2 ^ 62 :=
    lt_trans hkb (by norm_num)
  have hku : u32 (out.hw_period_size * out.hw_period_count)
      = out.hw_period_size * out.hw_period_count := by
    unfold u32 U32
    omega
  have hp : i64ofU64 (u64sub out.hw_frames_written
        (out.hw_period_size * out.hw_period_count) + env.avail)
      = (out.hw_frames_written : Int) + env.avail
        - out.hw_period_size * out.hw_period_count := by
    have := i64_presented_eq out.hw_frames_written
      (out.hw_period_size * out.hw_period_count) env.avail hwb hkb' hab
    simpa using this
  have hp0 : i64ofU64 (u64sub out.hw_frames_written
        (out.hw_period_size * out.hw_period_count))
      = (out.hw_frames_written : Int)
        - out.hw_period_size * out.hw_period_count := by
    have := i64_presented_eq out.hw_frames_written
      (out.hw_period_size * out.hw_period_count) 0 hwb hkb' (by norm_num)
    simpa using this
  constructor
  · intro hpcm
    cases hh : env.htsOk with
    | false => simp [out_get_presentation_position, hpcm, hh]
    | true =>
        simp only [out_get_presentation_position, hpcm, hh, hku, hp,
                   if_true, ite_true, true_and]
        by_cases hle : out.hw_period_size * out.hw_period_count
            ≤ out.hw_frames_written + env.avail
        · rw [if_pos (by omega), if_pos hle]
          congr 1
          omega
        · rw [if_neg (by omega), if_neg hle]
  · intro hpcm
    simp only [out_get_presentation_position, hpcm, hku, hp0,
               Bool.false_eq_true, if_false, ite_false]
    by_cases hle : out.hw_period_size * out.hw_period_count
        ≤ out.hw_frames_written
    · rw [if_pos (by omega), if_pos hle]
      congr 1
      omega
    · rw [if_neg (by omega), if_neg hle]

/-- Witness for the amended C8 theorem at a concrete input: pcm open,
1024 frames written, kernel buffer 256 × 4, 256 frames available. -/
theorem out_get_presentation_position_spec_witness :
    out_get_presentation_position { htsOk := true, avail := 256 }
      { standby := false, pcm := true, hw_period_size := 256,
        hw_period_count := 4, hw_frames_written := 1024,
        hw_frames_rendered := 1024, frame_size := 4 } = some 256 := by
  have h := (out_get_presentation_position_spec
    { htsOk := true, avail := 256 }
    { standby := false, pcm := true, hw_period_size := 256,
      hw_period_count := 4, hw_frames_written := 1024,
      hw_frames_rendered := 1024, frame_size := 4 }
    (by norm_num) (by norm_num) (by norm_num)).1 rfl
  rw [h]
  norm_num

/-!
Input reads: `do_in_pcm_read`, `do_in_compress_pcm_read` and the
`in_pcm_read` safety net around them.
-/

/-- `required_interval` computed by `do_in_realtime_delay`: the
real-time duration of `bytes` at the stream rate, in units that a left
shift by 19 converts to approximately nanoseconds
(`(1907 * bytes) / (frame_size * sample_rate)`). -/
def required_interval (frame_size sample_rate bytes : Nat) : Nat :=
  1907 * bytes / (frame_size * sample_rate)

/-- Result of an input read path: the returned value, the
`do_in_realtime_delay` calls issued (recorded by byte argument, in
order) and whether the caller's buffer was overwritten with zeros. -/
structure InReadR where
  ret : Int
  delays : List Nat
  zeroed : Bool
  deriving DecidableEq, Repr

/-- `do_in_compress_pcm_read` from the source: start the compressed
stream (a failure is returned as-is); `compress_read` returns `readRet`;
on a strictly positive result — data actually delivered — throttle to at
most four times real time by delaying for the duration of ONE QUARTER of
the requested byte count; a read that delivers no data performs no delay
here. -/
def do_in_compress_pcm_read (startRet readRet : Int) (bytes : Nat) :
    InReadR :=
  if startRet < 0 then ⟨startRet, [], false⟩
  else if 0 < readRet then ⟨readRet, [bytes / 4], false⟩
  else ⟨readRet, [], false⟩

/-- `do_in_pcm_read` from the source: start the PCM stream (a failure is
returned as-is); read from the transport (`transportRet` is the
`pcm_read` / `read_resampled_frames` result) and report the full byte
count on any non-negative result; with audio disabled sleep, zero the
buffer and return the (zero) start result. -/
def do_in_pcm_read (startRet transportRet : Int) (disable_audio : Bool)
    (bytes : Nat) : InReadR :=
  if startRet < 0 then ⟨startRet, [], false⟩
  else if disable_audio = false then
    if 0 ≤ transportRet then ⟨bytes, [], false⟩
    else ⟨transportRet, [], false⟩
  else ⟨0, [], true⟩

/-- `in_pcm_read` from the source: fail with EINVAL when the stream has
no hardware path or no current routes, else dispatch to the per-kind
helper (`inner` is its result); then the safety net: on a non-positive
result or with the device microphone muted, zero the whole buffer and
report the full byte count, delaying for the real-time duration of
`bytes` only when nothing was captured (non-positive result).
(`do_in_set_read_timestamp`, pure timekeeping, is not modelled.) -/
def in_pcm_read (hwPresent : Bool) (routes : Nat) (mic_mute : Bool)
    (inner : InReadR) (bytes : Nat) : InReadR :=
  let r : InReadR :=
    if hwPresent = false then ⟨-EINVAL, [], false⟩
    else if routes = 0 then ⟨-EINVAL, [], false⟩
    else inner
  if r.ret ≤ 0 ∨ mic_mute = true then
    { ret := bytes,
      delays := r.delays ++ (if r.ret ≤ 0 then [bytes] else []),
      zeroed := true }
  else r

/-- C7: for a routed input stream, (i) a failed transport read yields a
fully zeroed buffer, the full requested byte count and a realtime delay
of `bytes`; (ii) a zero-length compressed read does the same; (iii) a
successful capture with the device microphone muted yields a zeroed
buffer and the full byte count with NO delay; (iv) a successful capture
unmuted passes the data through with no zeroing and no delay — so the
delay happens exactly when no data was captured. -/
theorem in_pcm_read_safety_net (mute : Bool) (routes : Nat)
    (transportRet : Int) (bytes : Nat)
    (hroutes : routes ≠ 0) (hb : 0 < bytes) :
    (transportRet < 0 →
      in_pcm_read true routes mute
        (do_in_pcm_read 0 transportRet false bytes) bytes
        = ⟨bytes, [bytes], true⟩) ∧
    (in_pcm_read true routes mute
      (do_in_compress_pcm_read 0 0 bytes) bytes
        = ⟨bytes, [bytes], true⟩) ∧
    (0 ≤ transportRet →
      in_pcm_read true routes true
        (do_in_pcm_read 0 transportRet false bytes) bytes
        = ⟨bytes, [], true⟩) ∧
    (0 ≤ transportRet →
      in_pcm_read true routes false
        (do_in_pcm_read 0 transportRet false bytes) bytes
        = ⟨bytes, [], false⟩) := by
  have hbi : ¬ ((bytes : Int) ≤ 0) := by omega
  refine ⟨fun ht => ?_, ?_, fun ht => ?_, fun ht => ?_⟩
  · have h1 : transportRet ≤ 0 := le_of_lt ht
    have h2 : ¬ (0 ≤ transportRet) := not_le.mpr ht
    simp [in_pcm_read, do_in_pcm_read, hroutes, h1, h2]
  · simp [in_pcm_read, do_in_compress_pcm_read, hroutes]
  · simp [in_pcm_read, do_in_pcm_read, hroutes, ht, hbi]
  · simp [in_pcm_read, do_in_pcm_read, hroutes, ht, hbi]

/-- Witness for C7 at a concrete input: route 1, a 640-byte read whose
transport read fails with -5 (EIO). -/
theorem in_pcm_read_safety_net_witness :
    in_pcm_read true 1 false (do_in_pcm_read 0 (-5) false 640) 640
      = ⟨640, [640], true⟩ :=
  (in_pcm_read_safety_net false 1 (-5) 640 (by decide) (by decide)).1
    (by decide)

/-- C10: a compressed-path read that actually delivers data (strictly
positive transport return) performs exactly one realtime delay, for the
duration of ONE QUARTER of the requested byte count; a compressed read
that delivers no data (zero or negative return, or a failed stream
start) performs no delay inside this function. -/
theorem compress_read_quarter_throttle (startRet readRet : Int)
    (bytes : Nat) :
    (0 ≤ startRet → 0 < readRet →
      do_in_compress_pcm_read startRet readRet bytes
        = ⟨readRet, [bytes / 4], false⟩) ∧
    (0 ≤ startRet → readRet ≤ 0 →
      do_in_compress_pcm_read startRet readRet bytes
        = ⟨readRet, [], false⟩) ∧
    (startRet < 0 →
      do_in_compress_pcm_read startRet readRet bytes
        = ⟨startRet, [], false⟩) := by
  refine ⟨fun hs hr => ?_, fun hs hr => ?_, fun hs => ?_⟩
  · simp [do_in_compress_pcm_read, not_lt.mpr hs, hr]
  · simp [do_in_compress_pcm_read, not_lt.mpr hs, not_lt.mpr hr]
  · simp [do_in_compress_pcm_read, hs]

/-- Witness for C10 at a concrete input: a successful 4096-byte
compressed read delays for the duration of 1024 bytes. -/
theorem compress_read_quarter_throttle_witness :
    do_in_compress_pcm_read 0 4096 4096 = ⟨4096, [1024], false⟩ :=
  (compress_read_quarter_throttle 0 4096 4096).1 (by decide) (by decide)

end AudioHw
